import Mathlib

/-!
Verification of the ant-colony-simulator rust backend.

This development shallowly embeds the simulation code of
`apps/rust-backend/src` in Lean 4 and proves or refutes the claims of the
specification against it.

Modelling conventions:
* Rust `i32`/`i64` integers are modelled as `Int` (with explicit wrapping
  where overflow matters, see `i32_abs`).
* Rust `f32` quantities that are only added, subtracted, compared and
  clamped are modelled as `Rat` (exact arithmetic, which keeps every
  definition executable and every concrete statement decidable).
* The trigonometric boundary-reflection geometry of `move_with_bounds` is
  modelled over `Real` in its own section near the end of the definitions.
* Rust `HashMap<String, i32>` is modelled as an association list with
  replace-on-insert semantics (`mapInsert`), matching `HashMap::insert`.
* The concurrent `DashMap` stores of `SimulationCache` are modelled as
  functions `Int → Option _`; `update_*` on a missing id is a no-op,
  exactly as in `cache.rs`.
* Sources of nondeterminism (random number draws, `DashMap` iteration
  order, and the floating-point geometry feeding new positions/angles)
  enter the per-ant behavior step as explicit oracle inputs
  (`MotionOracle`, `AntOracle`); every state-field update mirrors the
  corresponding `update_ant`/`update_colony`/`update_food_source` closure
  of `managers/ant_behavior.rs` verbatim.
-/

/-! ### Core enums and small helpers (models.rs) -/

/-- Lifecycle state of an ant, `models.rs` `enum AntState`. -/
inductive AntState where
  | Wandering
  | SeekingFood
  | CarryingFood
  | Following
  | Exploring
  | Patrolling
  | Dead
deriving DecidableEq, Repr

/-- Pheromone trail kind, `models.rs` `enum PheromoneType`. -/
inductive PheromoneType where
  | Food
  | Danger
  | Home
  | Exploration
deriving DecidableEq, Repr

/-- Ant target, the `Target` enum of the cache data model (its defining
file is not under `src/`; the variants and payloads are reconstructed from
`simulation.rs` `parse_ant_target` and the uses in
`managers/ant_behavior.rs`). -/
inductive Target where
  | Food (id : Int)
  | Colony (id : Int)
  | Position (x y : Rat)
deriving DecidableEq, Repr

/-- The resource key used by collect and deposit, the literal `"food"`. -/
def foodKey : String := "food"

/-- Role tag literal `"scout"`. -/
def roleScout : String := "scout"

/-- Role tag literal `"worker"`. -/
def roleWorker : String := "worker"

/-- Role tag literal `"soldier"`. -/
def roleSoldier : String := "soldier"

/-- `HashMap::insert`: replace the value stored at a key, or append the
binding if the key is absent. -/
def mapInsert (k : String) (v : Int) : List (String × Int) → List (String × Int)
  | [] => [(k, v)]
  | (k', v') :: rest => if k' = k then (k, v) :: rest else (k', v') :: mapInsert k v rest

/-- `HashMap::get(..).unwrap_or(&d)`: the value stored at a key, or a
default. -/
def mapGetD (m : List (String × Int)) (k : String) (d : Int) : Int :=
  match m with
  | [] => d
  | (k', v') :: rest => if k' = k then v' else mapGetD rest k d

/-- `values().sum()`: the sum of all stored values. -/
def mapValuesSum (m : List (String × Int)) : Int :=
  (m.map (fun p => p.2)).sum

/-- Squared euclidean distance between two points.  The source compares
`(dx*dx + dy*dy).sqrt()` against nonnegative constants; every such
comparison is embedded as the equivalent comparison of the squared
distance against the squared constant. -/
def dist2 (p q : Rat × Rat) : Rat :=
  (p.1 - q.1) * (p.1 - q.1) + (p.2 - q.2) * (p.2 - q.2)

/-- Two's-complement `i32::abs`: the absolute value, except that it wraps
on the single input `i32::MIN = -2^31` (in release builds; debug builds
panic there). -/
def i32_abs (x : Int) : Int :=
  if x = -(2 ^ 31) then -(2 ^ 31) else x.natAbs

/-! ### Cache entity records

The `FastAnt`, `FastColony`, `FastFoodSource`, `FastPheromoneTrail` and
cache-side `AntType` struct definitions are not among the source files
under `src/`; their complete field lists are reconstructed from the
literal struct expressions in `simulation.rs` (`load_initial_data`),
`managers/ant_behavior.rs` (`create_pheromone_trail`) and `database.rs`
(`load_ant_types`). -/

/-- Cache ant record (fields as constructed in `simulation.rs:108`). -/
structure FastAnt where
  id : Int
  colony_id : Int
  ant_type_id : Int
  position : Rat × Rat
  angle : Rat
  speed : Rat
  health : Int
  energy : Int
  age_ticks : Int
  state : AntState
  target : Option Target
  carried_resources : List (String × Int)
  last_action_tick : Int
  last_food_source_id : Option Int
deriving DecidableEq, Repr

/-- Cache colony record (fields as constructed in `simulation.rs:92`). -/
structure FastColony where
  id : Int
  center : Rat × Rat
  radius : Rat
  population : Int
  resources : List (String × Int)
  territory_radius : Rat
  aggression_level : Rat
deriving DecidableEq, Repr

/-- Cache food source record (fields as constructed in
`simulation.rs:131`). -/
structure FastFoodSource where
  id : Int
  position : Rat × Rat
  food_type : String
  amount : Int
  max_amount : Int
  regeneration_rate : Rat
  is_renewable : Bool
deriving DecidableEq, Repr

/-- Cache pheromone trail record (fields as constructed in
`managers/ant_behavior.rs:688`). -/
structure FastPheromoneTrail where
  id : Int
  colony_id : Int
  trail_type : PheromoneType
  position : Rat × Rat
  strength : Rat
  decay_rate : Rat
  expires_at : Int
  target_food_id : Option Int
  ant_id : Int
deriving DecidableEq, Repr

/-- Cache ant type record (fields as constructed in `database.rs:118`). -/
structure AntType where
  id : Int
  name : String
  base_speed : Int
  base_strength : Int
  base_health : Int
  base_size : Int
  lifespan_ticks : Int
  carrying_capacity : Int
  role : String
  color_hue : Int
deriving DecidableEq, Repr

/-- World rectangle, `models.rs` `struct WorldBounds`. -/
structure WorldBounds where
  width : Rat
  height : Rat
deriving DecidableEq, Repr

/-- The mutable simulation state of `cache.rs` `SimulationCache`: one
keyed store per entity kind plus the world bounds and tick counter.  The
dirty-flag maps only feed the persistence adapter and are omitted. -/
structure Cache where
  ants : Int → Option FastAnt
  colonies : Int → Option FastColony
  food_sources : Int → Option FastFoodSource
  pheromone_trails : Int → Option FastPheromoneTrail
  ant_types : Int → Option AntType
  world_bounds : WorldBounds
  current_tick : Int

/-- `cache.rs` `update_ant`: apply a mutation to the stored ant with the
given id; a missing id is a no-op. -/
def updateAnt (c : Cache) (id : Int) (f : FastAnt → FastAnt) : Cache :=
  match c.ants id with
  | none => c
  | some a => { c with ants := fun j => if j = id then some (f a) else c.ants j }

/-- `cache.rs` `update_colony`: mutation under the colony store; a missing
id is a no-op. -/
def updateColony (c : Cache) (id : Int) (f : FastColony → FastColony) : Cache :=
  match c.colonies id with
  | none => c
  | some col => { c with colonies := fun j => if j = id then some (f col) else c.colonies j }

/-- `cache.rs` `update_food_source`: mutation under the food store; a
missing id is a no-op. -/
def updateFoodSource (c : Cache) (id : Int) (f : FastFoodSource → FastFoodSource) : Cache :=
  match c.food_sources id with
  | none => c
  | some fo => { c with food_sources := fun j => if j = id then some (f fo) else c.food_sources j }

/-- `cache.rs` `insert_pheromone_trail`: keyed insert (overwrite) of a
trail. -/
def insertPheromoneTrail (c : Cache) (t : FastPheromoneTrail) : Cache :=
  { c with pheromone_trails := fun j => if j = t.id then some t else c.pheromone_trails j }

/-- `managers/ant_behavior.rs:686` `create_pheromone_trail`.  The trail id
is the absolute value of a freshly drawn random `i32` (`rngDraw` is the
drawn value); decay rate 0.0005 and absolute expiry tick 20000 are the
literals of the source. -/
def create_pheromone_trail (c : Cache) (rngDraw : Int) (position : Rat × Rat)
    (colony_id : Int) (trail_type : PheromoneType) (strength : Rat)
    (target_food_id : Option Int) (ant_id : Int) : Cache :=
  insertPheromoneTrail c
    { id := i32_abs rngDraw
      colony_id := colony_id
      trail_type := trail_type
      position := position
      strength := strength
      decay_rate := 1 / 2000
      expires_at := 20000
      target_food_id := target_food_id
      ant_id := ant_id }

/-! ### Bevy pheromone decay (managers/pheromone.rs) -/

/-- Bevy pheromone component, `models.rs` `struct PheromoneProperties`
(the `source_ant` / `target_food` entity references are modelled as
optional ids). -/
structure PheromoneProperties where
  trail_type : PheromoneType
  strength : Rat
  max_strength : Rat
  decay_rate : Rat
  expires_at : Int
  source_ant : Option Int
  target_food : Option Int
deriving DecidableEq, Repr

/-- One trail's treatment by `managers/pheromone.rs:11`
`pheromone_decay_system`: subtract the decay rate (clamped at 0), then
despawn (`none`) exactly when the new strength is `≤ 0` or the current
tick strictly exceeds `expires_at`; otherwise the decayed trail
survives. -/
def pheromone_decay_step (current_tick : Int) (p : PheromoneProperties) :
    Option PheromoneProperties :=
  let p' := { p with strength := max (p.strength - p.decay_rate) 0 }
  if p'.strength ≤ 0 ∨ current_tick > p'.expires_at then none else some p'

/-- `managers/pheromone.rs:197` `calculate_decay_rate` (0.04, 0.03, 0.06,
0.15 as exact rationals). -/
def calculate_decay_rate (t : PheromoneType) : Rat :=
  match t with
  | PheromoneType.Food => 1 / 25
  | PheromoneType.Home => 3 / 100
  | PheromoneType.Exploration => 3 / 50
  | PheromoneType.Danger => 3 / 20

/-! ### Bevy colony population accounting (managers/colony.rs) -/

/-- Bevy colony component, `models.rs` `struct ColonyProperties`. -/
structure ColonyProperties where
  name : String
  center : Rat × Rat
  radius : Rat
  population : Int
  max_population : Int
  color_hue : Rat
  territory_radius : Rat
  aggression_level : Rat
deriving DecidableEq, Repr

/-- The population-recount portion of `managers/colony.rs:28`
`colony_spawning_system`: for every colony, `population` is set to
`ants.iter().count()` — the total number of entities carrying the `Ant`
marker.  An ant entity is represented here by its `AntState` component
(the count itself only uses the marker and is independent of the state
and of any colony membership). -/
def colony_spawning_population_update (ants : List AntState)
    (colonies : List ColonyProperties) : List ColonyProperties :=
  colonies.map (fun cp => { cp with population := (ants.length : Int) })

/-! ### Collect and deposit (managers/ant_behavior.rs) -/

/-- `managers/ant_behavior.rs:492` `collect_food`: debit
`min 5 food.amount` from the food source (when its amount is positive),
then either mark the ant as carrying that amount (replacing the `"food"`
entry of its carried map by `HashMap::insert`) and lay a Food trail of
strength 0.8, or — when nothing was collected — reset the ant to
wandering with no target. -/
def collect_food (c : Cache) (ant : FastAnt) (food_id : Int) (rngDraw : Int) : Cache :=
  let food_collected : Int :=
    match c.food_sources food_id with
    | some food => if 0 < food.amount then min 5 food.amount else 0
    | none => 0
  let c1 := updateFoodSource c food_id (fun food =>
    if 0 < food.amount then { food with amount := food.amount - min 5 food.amount } else food)
  if 0 < food_collected then
    let c2 := updateAnt c1 ant.id (fun a =>
      { a with
        state := AntState.CarryingFood
        target := some (Target.Food food_id)
        carried_resources := mapInsert foodKey food_collected a.carried_resources
        last_food_source_id := some food_id })
    create_pheromone_trail c2 rngDraw ant.position ant.colony_id PheromoneType.Food (4 / 5)
      (some food_id) ant.id
  else
    updateAnt c1 ant.id (fun a =>
      { a with state := AntState.Wandering, target := none })

/-- `managers/ant_behavior.rs:606` `deposit_food`: when the ant carries a
positive total, credit that total to the colony's `"food"` resource,
clear the ant's carried map, send it back to a remembered food source
with remaining amount (else wander), and reinforce a Home trail of
strength 0.6 at the colony center; when the carried total is not
positive, only reset the ant to wandering. -/
def deposit_food (c : Cache) (ant : FastAnt) (rngDraw : Int) : Cache :=
  let food_amount : Int := mapValuesSum ant.carried_resources
  if 0 < food_amount then
    let c1 := updateColony c ant.colony_id (fun colony =>
      { colony with
        resources :=
          mapInsert foodKey (mapGetD colony.resources foodKey 0 + food_amount) colony.resources })
    let food_source_id : Option Int :=
      match ant.target with
      | some (Target.Food i) => some i
      | _ => ant.last_food_source_id
    let c2 := updateAnt c1 ant.id (fun a =>
      let a0 := { a with carried_resources := ([] : List (String × Int)) }
      match food_source_id with
      | some fid =>
        let remaining : Int :=
          match c1.food_sources fid with
          | some f => f.amount
          | none => 0
        if 0 < remaining then
          { a0 with
            state := AntState.SeekingFood
            target := some (Target.Food fid)
            last_food_source_id := some fid }
        else
          { a0 with
            state := AntState.Wandering
            target := none
            last_food_source_id := none }
      | none =>
        { a0 with
          state := AntState.Wandering
          target := none
          last_food_source_id := none })
    match c2.colonies ant.colony_id with
    | some colony =>
      create_pheromone_trail c2 rngDraw colony.center ant.colony_id PheromoneType.Home (3 / 5)
        none ant.id
    | none => c2
  else
    updateAnt c ant.id (fun a =>
      { a with state := AntState.Wandering, target := none })

/-- The `"food"` amount stored by the colony with the given id (0 when
the colony or the entry is absent). -/
def colonyFoodAt (c : Cache) (id : Int) : Int :=
  match c.colonies id with
  | some col => mapGetD col.resources foodKey 0
  | none => 0

/-- The amount held by the food source with the given id (0 when
absent). -/
def foodAmountAt (c : Cache) (id : Int) : Int :=
  match c.food_sources id with
  | some f => f.amount
  | none => 0

/-- The total carried by the ant stored at the given id (0 when
absent). -/
def carriedAt (c : Cache) (id : Int) : Int :=
  match c.ants id with
  | some a => mapValuesSum a.carried_resources
  | none => 0

/-! ### The per-ant behavior step (managers/ant_behavior.rs)

The geometric computations of the motion functions (random turns, cosine
and sine of headings, `move_with_bounds`) and the pheromone-influence
summation produce `f32` values from per-call random generators; their
results enter the step below as oracle inputs.  What the model keeps
exact is everything the claims are about: which cache entries each
function writes, which record fields each `update_*` closure changes, and
every branch condition on cache data.  Distance comparisons against
nonnegative constants are embedded as squared-distance comparisons. -/

/-- Outcome of one `move_with_bounds` call (new position and heading),
supplied by the oracle. -/
structure MotionOracle where
  pos : Rat × Rat
  angle : Rat
deriving DecidableEq, Repr

/-- Oracle inputs of one per-ant step: the nondeterministic query results
and random draws consumed by `determine_ant_action` and the motion
functions of `managers/ant_behavior.rs`. -/
structure AntOracle where
  /-- Result of `get_food_sources_near_position(pos, 50).find(amount > 0)`
  in the Wandering branch (`DashMap` iteration order is unspecified). -/
  nearbyFoodW : Option FastFoodSource
  /-- Result pair of `get_pheromone_influence` in the Wandering branch. -/
  influenceW : Rat × Rat
  /-- Motion outcome of `move_ant_randomly`. -/
  randWander : MotionOracle
  /-- Motion outcome of `scout_explore`. -/
  randExplore : MotionOracle
  /-- Motion outcome of `soldier_patrol`. -/
  randPatrol : MotionOracle
  /-- Motion outcome of `move_ant_towards_food`. -/
  seekMotion : MotionOracle
  /-- Motion outcome of `follow_pheromone_trail`. -/
  followMotion : MotionOracle
  /-- Result of `get_food_sources_near_position(new_pos, 15).find(...)`
  inside `follow_pheromone_trail` (id of the found source). -/
  followFood : Option Int
  /-- Motion outcome of `move_ant_towards_target`. -/
  targetMotion : MotionOracle
  /-- Motion outcome of `move_ant_towards_colony`. -/
  colonyMotion : MotionOracle
  /-- Random `i32` drawn for the trail id in `scout_explore`. -/
  exploreRng : Int
  /-- Random `i32` drawn for the trail id in `move_ant_towards_food`. -/
  seekRng : Int
  /-- Random `i32` drawn for the trail id in `collect_food`. -/
  collectRng : Int
  /-- Random `i32` drawn for the trail id in `move_ant_towards_colony`. -/
  returnRng : Int
  /-- Random `i32` drawn for the trail id in `deposit_food`. -/
  depositRng : Int
deriving DecidableEq, Repr

/-- `managers/ant_behavior.rs:898` `enum AntAction`. -/
inductive AntAction where
  | Wander
  | Explore
  | Patrol
  | SeekFood (food_id : Int)
  | FollowPheromone (direction strength : Rat)
  | MoveToTarget
  | CollectFood (food_id : Int)
  | ReturnToColony
deriving DecidableEq, Repr

/-- `managers/ant_behavior.rs:678` `kill_ant`: set the stored ant's state
to `Dead` and its health to 0. -/
def kill_ant (c : Cache) (ant_id : Int) : Cache :=
  updateAnt c ant_id (fun a =>
    { a with state := AntState.Dead, health := 0 })

/-- `managers/ant_behavior.rs:81` `determine_ant_action`; `none` models
the `anyhow` error raised when the ant's type is missing. -/
def determine_ant_action (c : Cache) (ant : FastAnt) (o : AntOracle) : Option AntAction :=
  match c.ant_types ant.ant_type_id with
  | none => none
  | some ant_type =>
    match ant.state with
    | AntState.Wandering =>
      let fallback : AntAction :=
        let follow_threshold : Rat :=
          if ant_type.role = roleScout then 1 / 20
          else if ant_type.role = roleWorker then 1 / 10
          else 3 / 20
        if follow_threshold < o.influenceW.2 then
          AntAction.FollowPheromone o.influenceW.1 o.influenceW.2
        else if ant_type.role = roleScout then AntAction.Explore
        else if ant_type.role = roleSoldier then AntAction.Patrol
        else AntAction.Wander
      match o.nearbyFoodW with
      | some food =>
        if ant_type.role = roleSoldier then
          if dist2 ant.position food.position < 400 then some (AntAction.SeekFood food.id)
          else some fallback
        else some (AntAction.SeekFood food.id)
      | none => some fallback
    | AntState.SeekingFood =>
      match ant.target with
      | some (Target.Food food_id) =>
        match c.food_sources food_id with
        | some food =>
          if dist2 ant.position food.position < 25 then some (AntAction.CollectFood food_id)
          else some AntAction.MoveToTarget
        | none => some AntAction.Wander
      | _ => some AntAction.Wander
    | AntState.CarryingFood => some AntAction.ReturnToColony
    | _ => some AntAction.Wander

/-- `managers/ant_behavior.rs:197` `move_ant_randomly`'s `update_ant`
closure. -/
def move_ant_randomly (c : Cache) (ant : FastAnt) (o : AntOracle) : Cache :=
  updateAnt c ant.id (fun a =>
    { a with
      position := o.randWander.pos
      angle := o.randWander.angle
      speed := a.speed
      state := AntState.Wandering
      last_action_tick := c.current_tick })

/-- `managers/ant_behavior.rs:228` `scout_explore`: lay a weak
Exploration trail at the new position, then update position and angle. -/
def scout_explore (c : Cache) (ant : FastAnt) (o : AntOracle) : Cache :=
  let c1 := create_pheromone_trail c o.exploreRng o.randExplore.pos ant.colony_id
    PheromoneType.Exploration (1 / 10) none ant.id
  updateAnt c1 ant.id (fun a =>
    { a with position := o.randExplore.pos, angle := o.randExplore.angle })

/-- `managers/ant_behavior.rs:264` `soldier_patrol`: a missing colony
raises an error (no update); otherwise update position and angle. -/
def soldier_patrol (c : Cache) (ant : FastAnt) (o : AntOracle) : Cache :=
  match c.colonies ant.colony_id with
  | none => c
  | some _ =>
    updateAnt c ant.id (fun a =>
      { a with position := o.randPatrol.pos, angle := o.randPatrol.angle })

/-- `managers/ant_behavior.rs:297` `move_ant_towards_food`: when the food
source exists and is at positive distance, move (state becomes
SeekingFood, target the food) and drop a Home trail of strength 0.3;
when it vanished, wander. -/
def move_ant_towards_food (c : Cache) (ant : FastAnt) (food_id : Int) (o : AntOracle) : Cache :=
  match c.food_sources food_id with
  | some food =>
    if 0 < dist2 ant.position food.position then
      let c1 := updateAnt c ant.id (fun a =>
        { a with
          position := o.seekMotion.pos
          angle := o.seekMotion.angle
          state := AntState.SeekingFood
          target := some (Target.Food food_id) })
      create_pheromone_trail c1 o.seekRng o.seekMotion.pos ant.colony_id PheromoneType.Home
        (3 / 10) none ant.id
    else c
  | none => move_ant_randomly c ant o

/-- `managers/ant_behavior.rs:352` `follow_pheromone_trail`: move, then —
when a food source shows up nearby and the ant was not already seeking
that source — switch to seeking it. -/
def follow_pheromone_trail (c : Cache) (ant : FastAnt) (_direction _strength : Rat)
    (o : AntOracle) : Cache :=
  match o.followFood with
  | some foundFood =>
    let should_switch : Bool :=
      match ant.target with
      | some (Target.Food current_food_id) => decide (current_food_id ≠ foundFood)
      | _ => true
    if should_switch then
      updateAnt c ant.id (fun a =>
        { a with
          position := o.followMotion.pos
          angle := o.followMotion.angle
          state := AntState.SeekingFood
          target := some (Target.Food foundFood) })
    else
      updateAnt c ant.id (fun a =>
        { a with position := o.followMotion.pos, angle := o.followMotion.angle })
  | none =>
    updateAnt c ant.id (fun a =>
      { a with position := o.followMotion.pos, angle := o.followMotion.angle })

/-- Motion step of `move_ant_towards_target` once the target position is
resolved: adjust speed by distance (slow within 20 units of the target,
accelerate otherwise, within the type's base-speed limits) and move. -/
def move_towards_target_pos (c : Cache) (ant : FastAnt) (o : AntOracle) (tp : Rat × Rat) :
    Cache :=
  let base_speed : Rat :=
    match c.ant_types ant.ant_type_id with
    | some ant_type => (ant_type.base_speed : Rat)
    | none => 1
  let new_speed : Rat :=
    if dist2 ant.position tp < 400 then max (ant.speed - 1 / 10) (base_speed * (1 / 2))
    else min (ant.speed + 1 / 5) (base_speed * (3 / 2))
  updateAnt c ant.id (fun a =>
    { a with
      position := o.targetMotion.pos
      angle := o.targetMotion.angle
      speed := new_speed
      last_action_tick := c.current_tick })

/-- `managers/ant_behavior.rs:411` `move_ant_towards_target`: resolve the
target's position from the cache, returning silently (`Ok(())`) when the
target or the referenced entity is missing, then move with the adjusted
speed. -/
def move_ant_towards_target (c : Cache) (ant : FastAnt) (o : AntOracle) : Cache :=
  match ant.target with
  | none => c
  | some (Target.Food food_id) =>
    match c.food_sources food_id with
    | none => c
    | some food => move_towards_target_pos c ant o food.position
  | some (Target.Position x y) => move_towards_target_pos c ant o (x, y)
  | some (Target.Colony colony_id) =>
    match c.colonies colony_id with
    | none => c
    | some colony => move_towards_target_pos c ant o colony.center

/-- `managers/ant_behavior.rs:538` `move_ant_towards_colony`: inside the
colony radius deposit, otherwise (at positive distance from the center)
move toward the colony, laying a Food trail of strength 0.5 while the
ant carries food; a missing colony only logs. -/
def move_ant_towards_colony (c : Cache) (ant : FastAnt) (o : AntOracle) : Cache :=
  match c.colonies ant.colony_id with
  | none => c
  | some colony =>
    if 0 ≤ colony.radius ∧ dist2 ant.position colony.center < colony.radius * colony.radius then
      deposit_food c ant o.depositRng
    else
      if 0 < dist2 ant.position colony.center then
        let c1 := updateAnt c ant.id (fun a =>
          { a with position := o.colonyMotion.pos, angle := o.colonyMotion.angle })
        if ant.state = AntState.CarryingFood then
          create_pheromone_trail c1 o.returnRng o.colonyMotion.pos ant.colony_id
            PheromoneType.Food (1 / 2) none ant.id
        else c1
      else c

/-- `managers/ant_behavior.rs:182` `execute_ant_action`. -/
def execute_ant_action (c : Cache) (ant : FastAnt) (action : AntAction) (o : AntOracle) : Cache :=
  match action with
  | AntAction.Wander => move_ant_randomly c ant o
  | AntAction.Explore => scout_explore c ant o
  | AntAction.Patrol => soldier_patrol c ant o
  | AntAction.SeekFood food_id => move_ant_towards_food c ant food_id o
  | AntAction.FollowPheromone direction strength => follow_pheromone_trail c ant direction strength o
  | AntAction.MoveToTarget => move_ant_towards_target c ant o
  | AntAction.CollectFood food_id => collect_food c ant food_id o.collectRng
  | AntAction.ReturnToColony => move_ant_towards_colony c ant o

/-- Continuation of `process_ant_behavior` after the lifespan check:
energy decay (a local computation; `new_energy` is never stored), the
energy death check, then decide and execute the action.  A `determine`
error leaves the cache unchanged (the caller only logs it). -/
def process_ant_after_age (c : Cache) (ant : FastAnt) (o : AntOracle) : Cache :=
  let new_energy := max (ant.energy - 1) 0
  if new_energy ≤ 0 then kill_ant c ant.id
  else
    match determine_ant_action c ant o with
    | none => c
    | some action => execute_ant_action c ant action o

/-- `managers/ant_behavior.rs:52` `process_ant_behavior`: compute
`new_age` (a local value that is never stored), kill the ant when its
type is known and `new_age` exceeds the type's lifespan, then proceed
with energy decay and the chosen action. -/
def process_ant_behavior (c : Cache) (ant : FastAnt) (o : AntOracle) : Cache :=
  let new_age := ant.age_ticks + 1
  match c.ant_types ant.ant_type_id with
  | some ant_type =>
    if ant_type.lifespan_ticks < new_age then kill_ant c ant.id
    else process_ant_after_age c ant o
  | none => process_ant_after_age c ant o

/-- `managers/ant_behavior.rs:20` `process_tick`: process the snapshot of
living ants one after the other (the parallel batches only ever write at
the processed ant's own id, so their interleaving is equivalent to this
sequential fold; the snapshot list models the `DashMap` iteration with
its non-Dead filter, which the theorems state as a hypothesis). -/
def process_tick (c : Cache) (snapshot : List (FastAnt × AntOracle)) : Cache :=
  snapshot.foldl (fun acc p => process_ant_behavior acc p.1 p.2) c

/-! ### Delta broadcast (websocket.rs) -/

/-- `websocket.rs` `SimulationMessage::DeltaUpdate` payload. -/
structure DeltaUpdate where
  simulation_id : Int
  tick : Int
  updated_ants : List FastAnt
  updated_colonies : List FastColony
  updated_food_sources : List FastFoodSource
  new_pheromone_trails : List FastPheromoneTrail
  removed_ant_ids : List Int
  removed_food_source_ids : List Int
deriving DecidableEq, Repr

/-- The change test of `create_delta_update` for ants: position, state,
health or energy differ (`websocket.rs:230`). -/
def ant_changed (prev curr : FastAnt) : Bool :=
  decide (prev.position ≠ curr.position) || decide (prev.state ≠ curr.state) ||
    decide (prev.health ≠ curr.health) || decide (prev.energy ≠ curr.energy)

/-- The change test of `create_delta_update` for colonies: population or
resources differ (`websocket.rs:247`). -/
def colony_changed (prev curr : FastColony) : Bool :=
  decide (prev.population ≠ curr.population) || decide (prev.resources ≠ curr.resources)

/-- The change test of `create_delta_update` for food sources: the amount
differs (`websocket.rs:261`). -/
def food_changed (prev curr : FastFoodSource) : Bool :=
  decide (prev.amount ≠ curr.amount)

/-- `websocket.rs` updated-entity list: the current entities that are
absent from the previous snapshot or differ from it under the change
test (`current.iter().filter(.. map_or(true, changed) ..)`). -/
def upd_list {α : Type} (key : α → Int) (changed : α → α → Bool)
    (curr prev : List α) : List α :=
  curr.filter (fun cx =>
    match prev.find? (fun px => decide (key px = key cx)) with
    | none => true
    | some px => changed px cx)

/-- `websocket.rs` removed-id list: ids of previous entities with no
current entity of the same id (`websocket.rs:270`). -/
def removed_ids {α : Type} (key : α → Int) (curr prev : List α) : List Int :=
  (prev.filter (fun px => ! curr.any (fun cx => decide (key cx = key px)))).map key

/-- Lookup of the (first) list entry with the given id. -/
def lookupById {α : Type} (key : α → Int) (l : List α) (i : Int) : Option α :=
  l.find? (fun x => decide (key x = i))

/-- `websocket.rs:210` `create_delta_update`. -/
def create_delta_update (simulation_id current_tick : Int)
    (current_ants : List FastAnt) (current_colonies : List FastColony)
    (current_food_sources : List FastFoodSource)
    (current_pheromone_trails : List FastPheromoneTrail)
    (previous_ants : List FastAnt) (previous_colonies : List FastColony)
    (previous_food_sources : List FastFoodSource) : DeltaUpdate :=
  { simulation_id := simulation_id
    tick := current_tick
    updated_ants := upd_list FastAnt.id ant_changed current_ants previous_ants
    updated_colonies := upd_list FastColony.id colony_changed current_colonies previous_colonies
    updated_food_sources :=
      upd_list FastFoodSource.id food_changed current_food_sources previous_food_sources
    new_pheromone_trails := current_pheromone_trails
    removed_ant_ids := removed_ids FastAnt.id current_ants previous_ants
    removed_food_source_ids :=
      removed_ids FastFoodSource.id current_food_sources previous_food_sources }

/-- Modelled from the spec: "applying a received DeltaUpdate to the
previously-received FullState" for the ant store — a removed id is
dropped, an updated ant replaces (or adds to) the previous entry of the
same id, every other previous entry is kept.  The source contains no
apply operation (it lives in the viewers); this definition follows the
spec's words and is compared against `create_delta_update`. -/
def apply_delta_ants (d : DeltaUpdate) (previous : List FastAnt) (i : Int) : Option FastAnt :=
  if i ∈ d.removed_ant_ids then none
  else (lookupById FastAnt.id d.updated_ants i).orElse (fun _ => lookupById FastAnt.id previous i)

/-- Modelled from the spec: applying a DeltaUpdate to the previous colony
store (the message carries no removed colony ids, so no entry is ever
dropped). -/
def apply_delta_colonies (d : DeltaUpdate) (previous : List FastColony) (i : Int) :
    Option FastColony :=
  (lookupById FastColony.id d.updated_colonies i).orElse
    (fun _ => lookupById FastColony.id previous i)

/-- Modelled from the spec: applying a DeltaUpdate to the previous food
store. -/
def apply_delta_food (d : DeltaUpdate) (previous : List FastFoodSource) (i : Int) :
    Option FastFoodSource :=
  if i ∈ d.removed_food_source_ids then none
  else
    (lookupById FastFoodSource.id d.updated_food_sources i).orElse
      (fun _ => lookupById FastFoodSource.id previous i)

/-- The ant fields compared by the delta's change test. -/
def antObs (a : FastAnt) : (Rat × Rat) × AntState × Int × Int :=
  (a.position, a.state, a.health, a.energy)

/-- The colony fields compared by the delta's change test. -/
def colonyObs (c : FastColony) : Int × List (String × Int) :=
  (c.population, c.resources)

/-- The food-source field compared by the delta's change test. -/
def foodObs (f : FastFoodSource) : Int :=
  f.amount

/-- A snapshot list carries pairwise distinct entity ids. -/
def KeysNodup {α : Type} (key : α → Int) (l : List α) : Prop :=
  (l.map key).Nodup

/-! ### Boundary reflection geometry (managers/ant_behavior.rs:852)

`move_with_bounds` is the one function whose branch conditions involve
the trigonometric images of its own inputs, so it is modelled over the
real numbers. -/

noncomputable section

/-- Truncation toward zero, the rounding used by Rust's `%` on floats. -/
def fTrunc (x : ℝ) : ℤ :=
  if 0 ≤ x then ⌊x⌋ else ⌈x⌉

/-- Rust `a % b` on floats: the remainder `a - b * trunc (a / b)`, with
the sign of the dividend. -/
def fRem (a b : ℝ) : ℝ :=
  a - b * fTrunc (a / b)

/-- The final normalization of `move_with_bounds`: reduce modulo `2 π`
and add `2 π` when the remainder is negative. -/
def normalizeAngle (d : ℝ) : ℝ :=
  let r := fRem d (2 * Real.pi)
  if r < 0 then r + 2 * Real.pi else r

/-- One coordinate of the reflection: mirror a tentative coordinate that
crossed 0 or the bound back across the crossed boundary (`if` /
`else if`, so at most one mirroring per axis). -/
def reflect1 (bound v : ℝ) : ℝ :=
  if v < 0 then -v
  else if bound < v then bound - (v - bound)
  else v

/-- Heading change applied by the horizontal-boundary branch of
`move_with_bounds` (`π - direction` when either vertical wall was
crossed). -/
def reflectAngleX (bound v dir : ℝ) : ℝ :=
  if v < 0 then Real.pi - dir
  else if bound < v then Real.pi - dir
  else dir

/-- Heading change applied by the vertical-boundary branch of
`move_with_bounds` (`-direction` when either horizontal wall was
crossed). -/
def reflectAngleY (bound v dir : ℝ) : ℝ :=
  if v < 0 then -dir
  else if bound < v then -dir
  else dir

/-- `managers/ant_behavior.rs:852` `move_with_bounds`: advance the
position by `distance` along `direction`, mirror each coordinate that
left `[0, W] × [0, H]` across the crossed boundary while flipping the
corresponding heading component, then normalize the heading to
`[0, 2 π)`. -/
def move_with_bounds (W H : ℝ) (position : ℝ × ℝ) (direction distance : ℝ) :
    (ℝ × ℝ) × ℝ :=
  let nx := position.1 + Real.cos direction * distance
  let ny := position.2 + Real.sin direction * distance
  let dir1 := reflectAngleX W nx direction
  let dir2 := reflectAngleY H ny dir1
  ((reflect1 W nx, reflect1 H ny), normalizeAngle dir2)

end

/-! ### Concrete instances used by counterexamples and witnesses -/

/-- A cache with empty stores. -/
def cache0 : Cache :=
  { ants := fun _ => none
    colonies := fun _ => none
    food_sources := fun _ => none
    pheromone_trails := fun _ => none
    ant_types := fun _ => none
    world_bounds := { width := 1000, height := 1000 }
    current_tick := 0 }

/-- A fully concrete oracle (used to instantiate hypotheses). -/
def oracle0 : AntOracle :=
  { nearbyFoodW := none
    influenceW := (0, 0)
    randWander := { pos := (1, 1), angle := 0 }
    randExplore := { pos := (1, 1), angle := 0 }
    randPatrol := { pos := (1, 1), angle := 0 }
    seekMotion := { pos := (1, 1), angle := 0 }
    followMotion := { pos := (1, 1), angle := 0 }
    followFood := none
    targetMotion := { pos := (1, 1), angle := 0 }
    colonyMotion := { pos := (1, 1), angle := 0 }
    exploreRng := 1
    seekRng := 2
    collectRng := 3
    returnRng := 4
    depositRng := 5 }

/-- A baseline ant record for concrete instances. -/
def ant0 : FastAnt :=
  { id := 1
    colony_id := 1
    ant_type_id := 1
    position := (0, 0)
    angle := 0
    speed := 1
    health := 100
    energy := 100
    age_ticks := 0
    state := AntState.Wandering
    target := none
    carried_resources := []
    last_action_tick := 0
    last_food_source_id := none }

/-- A baseline food source for concrete instances. -/
def food0 : FastFoodSource :=
  { id := 7
    position := (1, 0)
    food_type := "berry"
    amount := 20
    max_amount := 50
    regeneration_rate := 0
    is_renewable := true }

/-- A baseline cache colony for concrete instances. -/
def colony0 : FastColony :=
  { id := 1
    center := (0, 0)
    radius := 30
    population := 5
    resources := [(foodKey, 10)]
    territory_radius := 100
    aggression_level := 0 }

/-- C2 counterexample ant: already carries 3 units of food while seeking
source 7. -/
def c2_ant : FastAnt :=
  { ant0 with
    state := AntState.SeekingFood
    target := some (Target.Food 7)
    carried_resources := [(foodKey, 3)]
    last_food_source_id := some 7 }

/-- C2 counterexample cache: the carrying seeker and a source holding 20
units. -/
def c2_cache : Cache :=
  { cache0 with
    ants := fun j => if j = 1 then some c2_ant else none
    food_sources := fun j => if j = 7 then some food0 else none }

/-- C2 witness ant: same seeker with nothing carried. -/
def c2w_ant : FastAnt :=
  { c2_ant with carried_resources := [] }

/-- C2 witness cache. -/
def c2w_cache : Cache :=
  { c2_cache with ants := fun j => if j = 1 then some c2w_ant else none }

/-- C3 witness ant: carries 5 units of food back to colony 1. -/
def c3_ant : FastAnt :=
  { ant0 with
    state := AntState.CarryingFood
    target := some (Target.Food 7)
    carried_resources := [(foodKey, 5)]
    last_food_source_id := some 7 }

/-- C3 witness cache: the carrier and its colony (stocking 10 units of
food). -/
def c3_cache : Cache :=
  { cache0 with
    ants := fun j => if j = 1 then some c3_ant else none
    colonies := fun j => if j = 1 then some colony0 else none }

/-- C4 counterexample trail: positive strength equal to the Food decay
rate. -/
def c4_trail : PheromoneProperties :=
  { trail_type := PheromoneType.Food
    strength := calculate_decay_rate PheromoneType.Food
    max_strength := 1
    decay_rate := calculate_decay_rate PheromoneType.Food
    expires_at := 20000
    source_ant := none
    target_food := none }

/-- C4 witness trail (decays from 1 to 24/25 and survives). -/
def c4w_trail : PheromoneProperties :=
  { c4_trail with strength := 1, expires_at := 100 }

/-- C4 witness trail after one decay step. -/
def c4w_trail_after : PheromoneProperties :=
  { c4w_trail with strength := 24 / 25 }

/-- C5 counterexample trail: expires at tick 7 and is processed at tick
7. -/
def c5_trail : PheromoneProperties :=
  { c4_trail with strength := 1, expires_at := 7 }

/-- C5 witness trail. -/
def c5w_trail : PheromoneProperties :=
  { c4_trail with strength := 1 / 2, max_strength := 1, expires_at := 100 }

/-- C5 witness trail after one decay step. -/
def c5w_trail_after : PheromoneProperties :=
  { c5w_trail with strength := 23 / 50 }

/-- C7 witness: a dead ant stored at id 2. -/
def c7_dead_ant : FastAnt :=
  { ant0 with id := 2, state := AntState.Dead, health := 0, energy := 0 }

/-- C7 witness cache: a live wanderer at id 1 and a dead ant at id 2. -/
def c7_cache : Cache :=
  { cache0 with
    ants := fun j => if j = 1 then some ant0 else if j = 2 then some c7_dead_ant else none }

/-- C8 counterexample colony. -/
def c8_colony : ColonyProperties :=
  { name := "alpha"
    center := (500, 500)
    radius := 30
    population := 0
    max_population := 50
    color_hue := 0
    territory_radius := 100
    aggression_level := 0 }

/-- C8 counterexample ant-entity states: two live ants and one dead
ant. -/
def c8_ants : List AntState :=
  [AntState.Wandering, AntState.SeekingFood, AntState.Dead]

/-- C9 counterexample previous-snapshot ant. -/
def c9_prev_ant : FastAnt :=
  { ant0 with angle := 0 }

/-- C9 counterexample current ant: only the heading angle changed. -/
def c9_curr_ant : FastAnt :=
  { c9_prev_ant with angle := 1 }

/-- C9 counterexample delta. -/
def c9_delta : DeltaUpdate :=
  create_delta_update 1 10 [c9_curr_ant] [] [] [] [c9_prev_ant] [] []

/-- C9 witness previous ant (position (0,0)). -/
def c9w_prev_ant : FastAnt :=
  ant0

/-- C9 witness current ant: the position moved. -/
def c9w_curr_ant : FastAnt :=
  { ant0 with position := (3, 4) }

/-- C9 witness delta. -/
def c9w_delta : DeltaUpdate :=
  create_delta_update 1 11 [c9w_curr_ant] [colony0] [food0] [] [c9w_prev_ant] [colony0] [food0]

/-- Relation between the ant stores before and after one per-ant
operation of the behavior phase acting on the ant with id `i`: every
stored ant keeps its `age_ticks` and `energy`, and every id other than
`i` keeps its whole record. -/
def AntsPreserved (i : Int) (c c' : Cache) : Prop :=
  ∀ j,
    ((c'.ants j).map (fun a => (a.age_ticks, a.energy)) =
      (c.ants j).map (fun a => (a.age_ticks, a.energy))) ∧
    (j ≠ i → c'.ants j = c.ants j)

/-! ## Theorems

First a family of small lemmas describing which stores each cache
operation touches, then the claims. -/

@[simp]
theorem ants_updateAnt (c : Cache) (i : Int) (f : FastAnt → FastAnt) (j : Int) :
    (updateAnt c i f).ants j = if j = i then (c.ants i).map f else c.ants j := by
  unfold updateAnt
  cases h : c.ants i with
  | none =>
    simp only [h, Option.map_none']
    split
    · next hji => rw [hji, h]
    · rfl
  | some a => simp [h]

@[simp]
theorem colonies_updateAnt (c : Cache) (i : Int) (f : FastAnt → FastAnt) :
    (updateAnt c i f).colonies = c.colonies := by
  unfold updateAnt; cases c.ants i <;> rfl

@[simp]
theorem food_updateAnt (c : Cache) (i : Int) (f : FastAnt → FastAnt) :
    (updateAnt c i f).food_sources = c.food_sources := by
  unfold updateAnt; cases c.ants i <;> rfl

@[simp]
theorem types_updateAnt (c : Cache) (i : Int) (f : FastAnt → FastAnt) :
    (updateAnt c i f).ant_types = c.ant_types := by
  unfold updateAnt; cases c.ants i <;> rfl

@[simp]
theorem tick_updateAnt (c : Cache) (i : Int) (f : FastAnt → FastAnt) :
    (updateAnt c i f).current_tick = c.current_tick := by
  unfold updateAnt; cases c.ants i <;> rfl

@[simp]
theorem colonies_updateColony (c : Cache) (i : Int) (f : FastColony → FastColony) (j : Int) :
    (updateColony c i f).colonies j = if j = i then (c.colonies i).map f else c.colonies j := by
  unfold updateColony
  cases h : c.colonies i with
  | none =>
    simp only [h, Option.map_none']
    split
    · next hji => rw [hji, h]
    · rfl
  | some a => simp [h]

@[simp]
theorem ants_updateColony (c : Cache) (i : Int) (f : FastColony → FastColony) :
    (updateColony c i f).ants = c.ants := by
  unfold updateColony; cases c.colonies i <;> rfl

@[simp]
theorem food_updateColony (c : Cache) (i : Int) (f : FastColony → FastColony) :
    (updateColony c i f).food_sources = c.food_sources := by
  unfold updateColony; cases c.colonies i <;> rfl

@[simp]
theorem food_updateFoodSource (c : Cache) (i : Int) (f : FastFoodSource → FastFoodSource)
    (j : Int) :
    (updateFoodSource c i f).food_sources j =
      if j = i then (c.food_sources i).map f else c.food_sources j := by
  unfold updateFoodSource
  cases h : c.food_sources i with
  | none =>
    simp only [h, Option.map_none']
    split
    · next hji => rw [hji, h]
    · rfl
  | some a => simp [h]

@[simp]
theorem ants_updateFoodSource (c : Cache) (i : Int) (f : FastFoodSource → FastFoodSource) :
    (updateFoodSource c i f).ants = c.ants := by
  unfold updateFoodSource; cases c.food_sources i <;> rfl

@[simp]
theorem colonies_updateFoodSource (c : Cache) (i : Int) (f : FastFoodSource → FastFoodSource) :
    (updateFoodSource c i f).colonies = c.colonies := by
  unfold updateFoodSource; cases c.food_sources i <;> rfl

@[simp]
theorem ants_insertPheromoneTrail (c : Cache) (t : FastPheromoneTrail) :
    (insertPheromoneTrail c t).ants = c.ants := rfl

@[simp]
theorem colonies_insertPheromoneTrail (c : Cache) (t : FastPheromoneTrail) :
    (insertPheromoneTrail c t).colonies = c.colonies := rfl

@[simp]
theorem food_insertPheromoneTrail (c : Cache) (t : FastPheromoneTrail) :
    (insertPheromoneTrail c t).food_sources = c.food_sources := rfl

@[simp]
theorem ants_create_pheromone_trail (c : Cache) (r : Int) (p : Rat × Rat) (cid : Int)
    (tt : PheromoneType) (s : Rat) (tf : Option Int) (aid : Int) :
    (create_pheromone_trail c r p cid tt s tf aid).ants = c.ants := rfl

@[simp]
theorem colonies_create_pheromone_trail (c : Cache) (r : Int) (p : Rat × Rat) (cid : Int)
    (tt : PheromoneType) (s : Rat) (tf : Option Int) (aid : Int) :
    (create_pheromone_trail c r p cid tt s tf aid).colonies = c.colonies := rfl

@[simp]
theorem food_create_pheromone_trail (c : Cache) (r : Int) (p : Rat × Rat) (cid : Int)
    (tt : PheromoneType) (s : Rat) (tf : Option Int) (aid : Int) :
    (create_pheromone_trail c r p cid tt s tf aid).food_sources = c.food_sources := rfl

/-! ### C4 and C5: pheromone decay -/

/-- C4 counterexample: the claim says decay is multiplicative with a
factor in (0,1], so a trail with positive strength keeps positive
strength after one decay step; but `pheromone_decay_system` subtracts
`decay_rate`, and a Food trail whose positive strength equals the Food
decay rate 0.04 decays to strength 0 and is removed in a single step. -/
theorem c4_positive_strength_trail_removed :
    0 < c4_trail.strength ∧ pheromone_decay_step 1 c4_trail = none := by
  constructor
  · norm_num [c4_trail, calculate_decay_rate]
  · norm_num [pheromone_decay_step, c4_trail, calculate_decay_rate]

/-- C4 (amended): decay is subtractive, `new = max (old − decay_rate) 0`;
every trail that survives a decay step with a nonnegative decay rate has
`new = old − decay_rate`, and its new strength is still positive and at
most the old strength (so a factor in (0,1] exists pointwise but depends
on the old strength, not only on kind, quality, age or consolidation). -/
theorem c4_decay_subtractive (tick : Int) (p p' : PheromoneProperties)
    (hd : 0 ≤ p.decay_rate)
    (hstep : pheromone_decay_step tick p = some p') :
    p'.strength = p.strength - p.decay_rate ∧ 0 < p'.strength ∧
      p'.strength ≤ p.strength := by
  simp only [pheromone_decay_step] at hstep
  split at hstep
  · exact absurd hstep (by simp)
  · next hcond =>
    injection hstep with hstep
    subst hstep
    push_neg at hcond
    have hpos : 0 < max (p.strength - p.decay_rate) 0 := hcond.1
    have hgt : 0 < p.strength - p.decay_rate := by
      by_contra hle
      push_neg at hle
      rw [max_eq_right hle] at hpos
      exact lt_irrefl 0 hpos
    have hmax : max (p.strength - p.decay_rate) 0 = p.strength - p.decay_rate :=
      max_eq_left (le_of_lt hgt)
    refine ⟨by simp [hmax], ?_, ?_⟩
    · simpa [hmax] using hgt
    · simp only [hmax]
      linarith

/-- C4 witness: the amended statement at a concrete surviving trail. -/
theorem c4_decay_subtractive_witness :
    (0 : Rat) ≤ c4w_trail.decay_rate ∧
      pheromone_decay_step 5 c4w_trail = some c4w_trail_after ∧
      (c4w_trail_after.strength = c4w_trail.strength - c4w_trail.decay_rate ∧
        0 < c4w_trail_after.strength ∧ c4w_trail_after.strength ≤ c4w_trail.strength) :=
  ⟨by norm_num [c4w_trail, c4_trail, calculate_decay_rate],
    by norm_num [pheromone_decay_step, c4w_trail, c4w_trail_after, c4_trail,
      calculate_decay_rate],
    c4_decay_subtractive 5 c4w_trail c4w_trail_after
      (by norm_num [c4w_trail, c4_trail, calculate_decay_rate])
      (by norm_num [pheromone_decay_step, c4w_trail, c4w_trail_after, c4_trail,
        calculate_decay_rate])⟩

/-- C5 counterexample: the claim says a trail present at tick `T`
satisfies `T < expiry_tick` ("a trail whose expiry tick has been reached
is removed"), but removal only triggers on `current_tick > expires_at`:
a trail whose expiry tick equals the current tick survives the decay
phase. -/
theorem c5_trail_survives_at_expiry_tick :
    (pheromone_decay_step 7 c5_trail).isSome = true ∧ ¬ (7 < c5_trail.expires_at) := by
  constructor
  · norm_num [pheromone_decay_step, c5_trail, c4_trail, calculate_decay_rate]
  · norm_num [c5_trail, c4_trail]

/-- C5 (amended): after a decay step every surviving trail `P` processed
at tick `T` satisfies `0 ≤ P.strength ≤ P.max_strength` and
`T ≤ P.expiry_tick` (removal happens for decayed strength ≤ 0, i.e.
ε = 0, or `T > P.expiry_tick`; equality of tick and expiry is kept). -/
theorem c5_surviving_trail_invariants (tick : Int) (p p' : PheromoneProperties)
    (hs0 : 0 ≤ p.strength) (hs : p.strength ≤ p.max_strength)
    (hd : 0 ≤ p.decay_rate)
    (hstep : pheromone_decay_step tick p = some p') :
    0 ≤ p'.strength ∧ p'.strength ≤ p'.max_strength ∧ tick ≤ p'.expires_at := by
  simp only [pheromone_decay_step] at hstep
  split at hstep
  · exact absurd hstep (by simp)
  · next hcond =>
    injection hstep with hstep
    subst hstep
    push_neg at hcond
    refine ⟨le_max_right _ _, ?_, hcond.2⟩
    have h1 : p.strength - p.decay_rate ≤ p.max_strength := by linarith
    have h2 : (0 : Rat) ≤ p.max_strength := le_trans hs0 hs
    simpa using max_le h1 h2

/-- C5 witness: the amended invariants at a concrete surviving trail. -/
theorem c5_surviving_trail_invariants_witness :
    (0 : Rat) ≤ c5w_trail.strength ∧ c5w_trail.strength ≤ c5w_trail.max_strength ∧
      (0 : Rat) ≤ c5w_trail.decay_rate ∧
      pheromone_decay_step 5 c5w_trail = some c5w_trail_after ∧
      (0 ≤ c5w_trail_after.strength ∧ c5w_trail_after.strength ≤ c5w_trail_after.max_strength ∧
        5 ≤ c5w_trail_after.expires_at) :=
  ⟨by norm_num [c5w_trail, c4_trail, calculate_decay_rate],
    by norm_num [c5w_trail, c4_trail],
    by norm_num [c5w_trail, c4_trail, calculate_decay_rate],
    by norm_num [pheromone_decay_step, c5w_trail, c5w_trail_after, c4_trail,
      calculate_decay_rate],
    c5_surviving_trail_invariants 5 c5w_trail c5w_trail_after
      (by norm_num [c5w_trail, c4_trail, calculate_decay_rate])
      (by norm_num [c5w_trail, c4_trail])
      (by norm_num [c5w_trail, c4_trail, calculate_decay_rate])
      (by norm_num [pheromone_decay_step, c5w_trail, c5w_trail_after, c4_trail,
        calculate_decay_rate])⟩

/-! ### C8: colony population accounting -/

/-- C8 counterexample: with one colony and three ant entities of which
one is Dead, `colony_spawning_system` sets the colony's population to 3,
while the number of live agents belonging to the colony is at most the
number of live agents, 2. -/
theorem c8_population_counts_all_ants :
    (colony_spawning_population_update c8_ants [c8_colony]).map (fun cp => cp.population) =
        [3] ∧
      ((c8_ants.filter (fun s => decide (s ≠ AntState.Dead))).length : Int) = 2 ∧
      (3 : Int) ≠ 2 := by
  refine ⟨?_, by decide, by decide⟩
  simp [colony_spawning_population_update, c8_ants]

/-- C8 (amended): each tick `colony_spawning_system` sets every colony's
population to the total number of ant entities in the world — counting
ants of every colony and also ants whose state is Dead — not to the
per-colony count of live members. -/
theorem c8_population_is_total_count (ants : List AntState)
    (colonies : List ColonyProperties) :
    (colony_spawning_population_update ants colonies).map (fun cp => cp.population) =
      colonies.map (fun _ => (ants.length : Int)) := by
  simp only [colony_spawning_population_update, List.map_map]
  rfl

/-! ### C10: pheromone trail ids -/

/-- C10 counterexample: at the draw `i32::MIN = -2^31` the id computation
`rng.gen::<i32>().abs()` overflows (wrapping to `-2^31` in release
builds, panicking in debug builds), so the trail created by
`create_pheromone_trail` is stored with a negative id. -/
theorem c10_abs_overflows_at_min :
    i32_abs (-(2 ^ 31)) = -(2 ^ 31) ∧ i32_abs (-(2 ^ 31)) < 0 ∧
      ((create_pheromone_trail cache0 (-(2 ^ 31)) (0, 0) 1 PheromoneType.Food 1 none
            1).pheromone_trails (-(2 ^ 31))).isSome = true := by
  refine ⟨by decide, by decide, ?_⟩
  simp [create_pheromone_trail, insertPheromoneTrail, i32_abs]

/-- C10 (amended): for every i32 draw other than `-2^31` the id
computation returns a nonnegative value. -/
theorem c10_abs_nonneg (x : Int) (_hlo : -(2 ^ 31) ≤ x) (_hhi : x < 2 ^ 31)
    (hne : x ≠ -(2 ^ 31)) : 0 ≤ i32_abs x := by
  unfold i32_abs
  rw [if_neg hne]
  exact Int.natCast_nonneg _

/-- C10 witness: the amended statement at the draw 5. -/
theorem c10_abs_nonneg_witness :
    -(2 ^ 31) ≤ (5 : Int) ∧ (5 : Int) < 2 ^ 31 ∧ (5 : Int) ≠ -(2 ^ 31) ∧ 0 ≤ i32_abs 5 :=
  ⟨by decide, by decide, by decide, c10_abs_nonneg 5 (by decide) (by decide) (by decide)⟩

/-! ### C2 and C3: collect and deposit conservation -/

theorem mapGetD_mapInsert (k : String) (v : Int) (m : List (String × Int)) (d : Int) :
    mapGetD (mapInsert k v m) k d = v := by
  induction m with
  | nil => simp [mapInsert, mapGetD]
  | cons h t ih =>
    obtain ⟨k', v'⟩ := h
    by_cases hk : k' = k
    · simp [mapInsert, hk, mapGetD]
    · simp [mapInsert, hk, mapGetD, ih]

/-- C2 (amended): an execution of Collect on an agent that carries
nothing beforehand — which is the case whenever the simulation itself
reaches `collect_food`, since Deposit clears the carried map before the
ant seeks again — debits the food source and credits the agent by the
same amount, which is between 0 and the per-collection limit 5.  (With a
nonempty prior carried map the `HashMap::insert` of `collect_food`
overwrites instead of adding, see the counterexample.) -/
theorem c2_collect_conservation (c : Cache) (ant : FastAnt) (food_id rngDraw : Int)
    (a0 : FastAnt) (ha : c.ants ant.id = some a0)
    (hempty : a0.carried_resources = []) :
    foodAmountAt c food_id - foodAmountAt (collect_food c ant food_id rngDraw) food_id =
        carriedAt (collect_food c ant food_id rngDraw) ant.id - carriedAt c ant.id ∧
      0 ≤ foodAmountAt c food_id - foodAmountAt (collect_food c ant food_id rngDraw) food_id ∧
      foodAmountAt c food_id - foodAmountAt (collect_food c ant food_id rngDraw) food_id ≤ 5 := by
  rcases hf : c.food_sources food_id with _ | food
  · simp [collect_food, hf, foodAmountAt, carriedAt, ha, hempty, mapValuesSum]
  · by_cases hamt : 0 < food.amount
    · have hfc : 0 < min 5 food.amount := lt_min (by norm_num) hamt
      have hd1 : foodAmountAt c food_id = food.amount := by simp [foodAmountAt, hf]
      have hd2 :
          foodAmountAt (collect_food c ant food_id rngDraw) food_id =
            food.amount - min 5 food.amount := by
        simp [collect_food, hf, hfc, foodAmountAt, hamt]
      have hc1 : carriedAt c ant.id = 0 := by simp [carriedAt, ha, hempty, mapValuesSum]
      have hc2 :
          carriedAt (collect_food c ant food_id rngDraw) ant.id = min 5 food.amount := by
        simp [collect_food, hf, hfc, carriedAt, ha, hempty, hamt, mapInsert, mapValuesSum]
      rw [hd1, hd2, hc1, hc2]
      refine ⟨by omega, by omega, by omega⟩
    · have hd1 : foodAmountAt c food_id = food.amount := by simp [foodAmountAt, hf]
      have hd2 :
          foodAmountAt (collect_food c ant food_id rngDraw) food_id = food.amount := by
        simp [collect_food, hf, hamt, foodAmountAt]
      have hc1 : carriedAt c ant.id = 0 := by simp [carriedAt, ha, hempty, mapValuesSum]
      have hc2 : carriedAt (collect_food c ant food_id rngDraw) ant.id = 0 := by
        simp [collect_food, hf, hamt, carriedAt, ha, hempty, mapValuesSum]
      rw [hd1, hd2, hc1, hc2]
      norm_num

/-- C2 witness: the amended statement at a concrete cache (an empty-
handed seeker collecting from a source holding 20 units). -/
theorem c2_collect_conservation_witness :
    c2w_cache.ants c2w_ant.id = some c2w_ant ∧ c2w_ant.carried_resources = [] ∧
      (foodAmountAt c2w_cache 7 - foodAmountAt (collect_food c2w_cache c2w_ant 7 0) 7 =
          carriedAt (collect_food c2w_cache c2w_ant 7 0) c2w_ant.id -
            carriedAt c2w_cache c2w_ant.id ∧
        0 ≤ foodAmountAt c2w_cache 7 - foodAmountAt (collect_food c2w_cache c2w_ant 7 0) 7 ∧
        foodAmountAt c2w_cache 7 - foodAmountAt (collect_food c2w_cache c2w_ant 7 0) 7 ≤ 5) :=
  ⟨rfl, rfl, c2_collect_conservation c2w_cache c2w_ant 7 0 c2w_ant rfl rfl⟩

/-- C2 counterexample: an agent that already carries 3 units executes
Collect on a source holding 20 units; the source loses 5 units but the
agent's carried total only rises by 2, because `collect_food` stores the
collected amount with `HashMap::insert`, overwriting the prior `"food"`
entry instead of adding to it.  (Such an agent state is loadable from
persistence, where `state` and `carried_resources` are independent
columns.) -/
theorem c2_collect_overwrites_carried :
    foodAmountAt c2_cache 7 - foodAmountAt (collect_food c2_cache c2_ant 7 0) 7 = 5 ∧
      carriedAt (collect_food c2_cache c2_ant 7 0) 1 - carriedAt c2_cache 1 = 2 ∧
      (5 : Int) ≠ 2 := by
  refine ⟨?_, ?_, by decide⟩
  · simp [collect_food, c2_cache, c2_ant, ant0, food0, foodAmountAt, carriedAt,
      mapInsert, mapValuesSum, foodKey]
  · simp [collect_food, c2_cache, c2_ant, ant0, food0, foodAmountAt, carriedAt,
      mapInsert, mapValuesSum, foodKey]

theorem carriedAt_create_pheromone_trail (c : Cache) (r : Int) (p : Rat × Rat) (cid : Int)
    (tt : PheromoneType) (s : Rat) (tf : Option Int) (aid : Int) (i : Int) :
    carriedAt (create_pheromone_trail c r p cid tt s tf aid) i = carriedAt c i := rfl

theorem carriedAt_updateAnt_of_some (c : Cache) (i : Int) (f : FastAnt → FastAnt)
    (a : FastAnt) (ha : c.ants i = some a) :
    carriedAt (updateAnt c i f) i = mapValuesSum (f a).carried_resources := by
  simp [carriedAt, ha]

/-- C3: a Deposit at the agent's colony credits the colony's `"food"`
resource by exactly the agent's carried total, and afterwards the agent
carries nothing.  The hypotheses record the call context of
`deposit_food` (the snapshot ant is the cached ant and its colony
exists) and the data-model invariant that carried amounts are
nonnegative. -/
theorem c3_deposit_conservation (c : Cache) (ant : FastAnt) (rngDraw : Int)
    (col : FastColony) (ha : c.ants ant.id = some ant)
    (hcol : c.colonies ant.colony_id = some col)
    (hnn : 0 ≤ mapValuesSum ant.carried_resources) :
    colonyFoodAt (deposit_food c ant rngDraw) ant.colony_id -
        colonyFoodAt c ant.colony_id = mapValuesSum ant.carried_resources ∧
      carriedAt (deposit_food c ant rngDraw) ant.id = 0 := by
  by_cases hpos : 0 < mapValuesSum ant.carried_resources
  · have hfood :
        colonyFoodAt (deposit_food c ant rngDraw) ant.colony_id =
          colonyFoodAt c ant.colony_id + mapValuesSum ant.carried_resources := by
      simp only [deposit_food, if_pos hpos]
      split
      · next heq =>
        simp only [colonyFoodAt, colonies_create_pheromone_trail, colonies_updateAnt,
          colonies_updateColony] at heq ⊢
        simp only [hcol, Option.map_some', if_pos rfl] at heq ⊢
        simp [mapGetD_mapInsert, hcol]
      · next heq =>
        simp only [colonies_updateAnt, colonies_updateColony] at heq
        simp only [hcol, Option.map_some', if_pos rfl] at heq
        exact absurd heq (by simp)
    have hcarried : carriedAt (deposit_food c ant rngDraw) ant.id = 0 := by
      simp only [deposit_food, if_pos hpos]
      have ha1 :
          (updateColony c ant.colony_id (fun colony =>
            { colony with
              resources :=
                mapInsert foodKey
                  (mapGetD colony.resources foodKey 0 + mapValuesSum ant.carried_resources)
                  colony.resources })).ants ant.id = some ant := by
        rw [ants_updateColony]; exact ha
      split
      · rw [carriedAt_create_pheromone_trail, carriedAt_updateAnt_of_some _ _ _ ant ha1]
        split
        · split <;> simp [mapValuesSum]
        · simp [mapValuesSum]
      · rw [carriedAt_updateAnt_of_some _ _ _ ant ha1]
        split
        · split <;> simp [mapValuesSum]
        · simp [mapValuesSum]
    exact ⟨by omega, hcarried⟩
  · have hzero : mapValuesSum ant.carried_resources = 0 := le_antisymm (not_lt.mp hpos) hnn
    constructor
    · simp [deposit_food, hpos, colonyFoodAt, hzero]
    · simp [deposit_food, hpos, carriedAt, ha, hzero]

/-- C3 witness: the conservation statement at a concrete cache (an ant
carrying 5 units depositing at a colony stocking 10). -/
theorem c3_deposit_conservation_witness :
    c3_cache.ants c3_ant.id = some c3_ant ∧
      c3_cache.colonies c3_ant.colony_id = some colony0 ∧
      0 ≤ mapValuesSum c3_ant.carried_resources ∧
      (colonyFoodAt (deposit_food c3_cache c3_ant 9) c3_ant.colony_id -
          colonyFoodAt c3_cache c3_ant.colony_id = mapValuesSum c3_ant.carried_resources ∧
        carriedAt (deposit_food c3_cache c3_ant 9) c3_ant.id = 0) :=
  ⟨rfl, rfl, by decide,
    c3_deposit_conservation c3_cache c3_ant 9 colony0 rfl rfl (by decide)⟩

/-! ### C1 and C7: the behavior phase on the ant stores -/

theorem antsPreserved_refl (i : Int) (c : Cache) : AntsPreserved i c c :=
  fun _ => ⟨rfl, fun _ => rfl⟩

theorem antsPreserved_trans {i : Int} {c c' c'' : Cache} (h1 : AntsPreserved i c c')
    (h2 : AntsPreserved i c' c'') : AntsPreserved i c c'' := by
  intro j
  exact ⟨(h2 j).1.trans (h1 j).1, fun hj => ((h2 j).2 hj).trans ((h1 j).2 hj)⟩

theorem antsPreserved_of_ants_eq {i : Int} {c c' : Cache} (h : c'.ants = c.ants) :
    AntsPreserved i c c' := by
  intro j
  rw [h]
  exact ⟨rfl, fun _ => rfl⟩

theorem antsPreserved_updateAnt (c : Cache) (i : Int) (f : FastAnt → FastAnt)
    (hf : ∀ a, (f a).age_ticks = a.age_ticks ∧ (f a).energy = a.energy) :
    AntsPreserved i c (updateAnt c i f) := by
  intro j
  constructor
  · rw [ants_updateAnt]
    split
    · next hj =>
      subst hj
      cases h : c.ants j <;> simp [(hf _).1, (hf _).2]
    · rfl
  · intro hj
    rw [ants_updateAnt, if_neg hj]

theorem antsPreserved_kill_ant (c : Cache) (i : Int) : AntsPreserved i c (kill_ant c i) := by
  unfold kill_ant
  exact antsPreserved_updateAnt c i _ (fun a => ⟨rfl, rfl⟩)

theorem antsPreserved_move_ant_randomly (c : Cache) (ant : FastAnt) (o : AntOracle) :
    AntsPreserved ant.id c (move_ant_randomly c ant o) := by
  unfold move_ant_randomly
  exact antsPreserved_updateAnt c ant.id _ (fun a => ⟨rfl, rfl⟩)

theorem antsPreserved_scout_explore (c : Cache) (ant : FastAnt) (o : AntOracle) :
    AntsPreserved ant.id c (scout_explore c ant o) := by
  unfold scout_explore
  exact antsPreserved_trans (antsPreserved_of_ants_eq rfl)
    (antsPreserved_updateAnt _ ant.id _ (fun a => ⟨rfl, rfl⟩))

theorem antsPreserved_soldier_patrol (c : Cache) (ant : FastAnt) (o : AntOracle) :
    AntsPreserved ant.id c (soldier_patrol c ant o) := by
  unfold soldier_patrol
  rcases h : c.colonies ant.colony_id with _ | col
  · exact antsPreserved_refl _ _
  · exact antsPreserved_updateAnt c ant.id _ (fun a => ⟨rfl, rfl⟩)

theorem antsPreserved_create_after {i : Int} {c c1 : Cache} {r : Int} {p : Rat × Rat}
    {cid : Int} {tt : PheromoneType} {s : Rat} {tf : Option Int} {aid : Int}
    (h : AntsPreserved i c c1) :
    AntsPreserved i c (create_pheromone_trail c1 r p cid tt s tf aid) :=
  antsPreserved_trans h (antsPreserved_of_ants_eq rfl)

theorem antsPreserved_move_ant_towards_food (c : Cache) (ant : FastAnt) (food_id : Int)
    (o : AntOracle) : AntsPreserved ant.id c (move_ant_towards_food c ant food_id o) := by
  unfold move_ant_towards_food
  cases hfs : c.food_sources food_id with
  | none => exact antsPreserved_move_ant_randomly c ant o
  | some food =>
    dsimp only
    split
    · exact antsPreserved_create_after
        (antsPreserved_updateAnt c ant.id _ (fun a => ⟨rfl, rfl⟩))
    · exact antsPreserved_refl _ _

theorem antsPreserved_follow_pheromone_trail (c : Cache) (ant : FastAnt)
    (direction strength : Rat) (o : AntOracle) :
    AntsPreserved ant.id c (follow_pheromone_trail c ant direction strength o) := by
  unfold follow_pheromone_trail
  cases hff : o.followFood with
  | none => exact antsPreserved_updateAnt c ant.id _ (fun a => ⟨rfl, rfl⟩)
  | some ff =>
    dsimp only
    split
    · exact antsPreserved_updateAnt c ant.id _ (fun a => ⟨rfl, rfl⟩)
    · exact antsPreserved_updateAnt c ant.id _ (fun a => ⟨rfl, rfl⟩)

theorem antsPreserved_move_towards_target_pos (c : Cache) (ant : FastAnt) (o : AntOracle)
    (tp : Rat × Rat) : AntsPreserved ant.id c (move_towards_target_pos c ant o tp) := by
  unfold move_towards_target_pos
  exact antsPreserved_updateAnt c ant.id _ (fun a => ⟨rfl, rfl⟩)

theorem antsPreserved_move_ant_towards_target (c : Cache) (ant : FastAnt) (o : AntOracle) :
    AntsPreserved ant.id c (move_ant_towards_target c ant o) := by
  unfold move_ant_towards_target
  cases ht : ant.target with
  | none => exact antsPreserved_refl _ _
  | some t =>
    cases t with
    | Food fid =>
      dsimp only
      cases hfs : c.food_sources fid with
      | none => exact antsPreserved_refl _ _
      | some f => exact antsPreserved_move_towards_target_pos c ant o f.position
    | Colony cid =>
      dsimp only
      cases hcs : c.colonies cid with
      | none => exact antsPreserved_refl _ _
      | some col => exact antsPreserved_move_towards_target_pos c ant o col.center
    | Position x y => exact antsPreserved_move_towards_target_pos c ant o (x, y)

theorem antsPreserved_collect_food (c : Cache) (ant : FastAnt) (food_id rngDraw : Int) :
    AntsPreserved ant.id c (collect_food c ant food_id rngDraw) := by
  unfold collect_food
  cases hfs : c.food_sources food_id <;> dsimp only <;> split
  all_goals try split
  all_goals
    first
    | exact antsPreserved_create_after
        (antsPreserved_trans (antsPreserved_of_ants_eq (ants_updateFoodSource c food_id _))
          (antsPreserved_updateAnt _ ant.id _ (fun a => ⟨rfl, rfl⟩)))
    | exact antsPreserved_trans (antsPreserved_of_ants_eq (ants_updateFoodSource c food_id _))
        (antsPreserved_updateAnt _ ant.id _ (fun a => ⟨rfl, rfl⟩))

theorem antsPreserved_deposit_food (c : Cache) (ant : FastAnt) (rngDraw : Int) :
    AntsPreserved ant.id c (deposit_food c ant rngDraw) := by
  by_cases hpos : 0 < mapValuesSum ant.carried_resources
  · simp only [deposit_food, if_pos hpos]
    split
    · exact antsPreserved_create_after
        (antsPreserved_trans (antsPreserved_of_ants_eq (ants_updateColony c ant.colony_id _))
          (antsPreserved_updateAnt _ ant.id _ (fun a => by
            split <;> first
            | (split <;> exact ⟨rfl, rfl⟩)
            | exact ⟨rfl, rfl⟩)))
    · exact antsPreserved_trans (antsPreserved_of_ants_eq (ants_updateColony c ant.colony_id _))
        (antsPreserved_updateAnt _ ant.id _ (fun a => by
          split <;> first
          | (split <;> exact ⟨rfl, rfl⟩)
          | exact ⟨rfl, rfl⟩))
  · simp only [deposit_food, if_neg hpos]
    exact antsPreserved_updateAnt c ant.id _ (fun a => ⟨rfl, rfl⟩)

theorem antsPreserved_move_ant_towards_colony (c : Cache) (ant : FastAnt) (o : AntOracle) :
    AntsPreserved ant.id c (move_ant_towards_colony c ant o) := by
  unfold move_ant_towards_colony
  cases hcs : c.colonies ant.colony_id with
  | none => exact antsPreserved_refl _ _
  | some col =>
    dsimp only
    split
    · exact antsPreserved_deposit_food c ant o.depositRng
    · split
      · split
        · exact antsPreserved_create_after
            (antsPreserved_updateAnt c ant.id _ (fun a => ⟨rfl, rfl⟩))
        · exact antsPreserved_updateAnt c ant.id _ (fun a => ⟨rfl, rfl⟩)
      · exact antsPreserved_refl _ _

theorem antsPreserved_execute_ant_action (c : Cache) (ant : FastAnt) (action : AntAction)
    (o : AntOracle) : AntsPreserved ant.id c (execute_ant_action c ant action o) := by
  cases action with
  | Wander => exact antsPreserved_move_ant_randomly c ant o
  | Explore => exact antsPreserved_scout_explore c ant o
  | Patrol => exact antsPreserved_soldier_patrol c ant o
  | SeekFood food_id => exact antsPreserved_move_ant_towards_food c ant food_id o
  | FollowPheromone direction strength =>
    exact antsPreserved_follow_pheromone_trail c ant direction strength o
  | MoveToTarget => exact antsPreserved_move_ant_towards_target c ant o
  | CollectFood food_id => exact antsPreserved_collect_food c ant food_id o.collectRng
  | ReturnToColony => exact antsPreserved_move_ant_towards_colony c ant o

theorem antsPreserved_process_ant_after_age (c : Cache) (ant : FastAnt) (o : AntOracle) :
    AntsPreserved ant.id c (process_ant_after_age c ant o) := by
  by_cases hen : max (ant.energy - 1) 0 ≤ 0
  · simp only [process_ant_after_age, if_pos hen]
    exact antsPreserved_kill_ant c ant.id
  · simp only [process_ant_after_age, if_neg hen]
    cases hda : determine_ant_action c ant o with
    | none => exact antsPreserved_refl _ _
    | some action => exact antsPreserved_execute_ant_action c ant action o

theorem antsPreserved_process_ant_behavior (c : Cache) (ant : FastAnt) (o : AntOracle) :
    AntsPreserved ant.id c (process_ant_behavior c ant o) := by
  unfold process_ant_behavior
  cases hat : c.ant_types ant.ant_type_id with
  | none => exact antsPreserved_process_ant_after_age c ant o
  | some ant_type =>
    dsimp only
    split
    · exact antsPreserved_kill_ant c ant.id
    · exact antsPreserved_process_ant_after_age c ant o

theorem process_tick_cons (c : Cache) (p : FastAnt × AntOracle)
    (rest : List (FastAnt × AntOracle)) :
    process_tick c (p :: rest) = process_tick (process_ant_behavior c p.1 p.2) rest := rfl

theorem process_tick_ants_ne (c : Cache) (snapshot : List (FastAnt × AntOracle)) (d : Int)
    (hd : ∀ p ∈ snapshot, p.1.id ≠ d) :
    (process_tick c snapshot).ants d = c.ants d := by
  induction snapshot generalizing c with
  | nil => rfl
  | cons p rest ih =>
    rw [process_tick_cons, ih _ (fun q hq => hd q (List.mem_cons_of_mem _ hq))]
    exact (antsPreserved_process_ant_behavior c p.1 p.2 d).2
      (Ne.symm (hd p (List.mem_cons_self _ _)))

/-- C1: the claim says a processed live agent's stored age increases by 1
and its stored energy decreases by 1 during the tick.  The code computes
`new_age` and `new_energy` but never writes them back: no `update_ant`
closure anywhere in the behavior phase touches `age_ticks` or `energy`,
so after a whole behavior tick every stored ant still has its previous
age and energy — the aging policy of the claim (and of spec §4.3 step 1)
is not implemented. -/
theorem c1_behavior_tick_stores_no_aging (c : Cache)
    (snapshot : List (FastAnt × AntOracle)) (j : Int) :
    ((process_tick c snapshot).ants j).map (fun a => (a.age_ticks, a.energy)) =
      (c.ants j).map (fun a => (a.age_ticks, a.energy)) := by
  induction snapshot generalizing c with
  | nil => rfl
  | cons p rest ih =>
    rw [process_tick_cons, ih (process_ant_behavior c p.1 p.2)]
    exact (antsPreserved_process_ant_behavior c p.1 p.2 j).1

/-- C7: Dead is absorbing in the behavior phase.  The snapshot processed
by `process_tick` contains only non-Dead ants (`living_ants` filter), and
every write of the phase targets the processed ant's own id, so an ant
stored with state Dead is never touched: its record — and in particular
its Dead state — survives the tick unchanged. -/
theorem c7_dead_state_absorbing (c : Cache) (snapshot : List (FastAnt × AntOracle))
    (d : Int) (deadAnt : FastAnt) (hd : c.ants d = some deadAnt)
    (hdead : deadAnt.state = AntState.Dead)
    (hsnap : ∀ p ∈ snapshot, c.ants p.1.id = some p.1 ∧ p.1.state ≠ AntState.Dead) :
    (process_tick c snapshot).ants d = some deadAnt ∧
      ((process_tick c snapshot).ants d).map (fun a => a.state) = some AntState.Dead := by
  have hne : ∀ p ∈ snapshot, p.1.id ≠ d := by
    intro p hp heq
    obtain ⟨hin, hlive⟩ := hsnap p hp
    rw [heq] at hin
    have : deadAnt = p.1 := by
      have := hd.symm.trans hin
      injection this
    exact hlive (this ▸ hdead)
  have hmain : (process_tick c snapshot).ants d = some deadAnt :=
    (process_tick_ants_ne c snapshot d hne).trans hd
  refine ⟨hmain, ?_⟩
  rw [hmain, Option.map_some', hdead]

/-- C7 witness: the absorption statement at a concrete cache holding a
live wanderer (id 1, processed) and a dead ant (id 2). -/
theorem c7_dead_state_absorbing_witness :
    c7_cache.ants 2 = some c7_dead_ant ∧ c7_dead_ant.state = AntState.Dead ∧
      (∀ p ∈ [(ant0, oracle0)],
        c7_cache.ants p.1.id = some p.1 ∧ p.1.state ≠ AntState.Dead) ∧
      ((process_tick c7_cache [(ant0, oracle0)]).ants 2 = some c7_dead_ant ∧
        ((process_tick c7_cache [(ant0, oracle0)]).ants 2).map (fun a => a.state) =
          some AntState.Dead) :=
  ⟨rfl, rfl, by decide,
    c7_dead_state_absorbing c7_cache [(ant0, oracle0)] 2 c7_dead_ant rfl rfl (by decide)⟩

/-! ### C9: delta reconstruction -/

theorem find?_filter_bool {α : Type} (l : List α) (p q : α → Bool) :
    (l.filter q).find? p = l.find? (fun x => p x && q x) := by
  induction l with
  | nil => rfl
  | cons x rest ih =>
    by_cases hq : q x
    · by_cases hp : p x
      · simp [List.filter_cons, hq, List.find?_cons_of_pos, hp]
      · rw [List.filter_cons, if_pos hq, List.find?_cons_of_neg _ (by simpa using hp),
          List.find?_cons_of_neg _ (by simp [hp]), ih]
    · rw [List.filter_cons, if_neg hq, List.find?_cons_of_neg _ (by simp [hq]), ih]

theorem find?_key_and {α : Type} (key : α → Int) (l : List α) (i : Int) (a : α)
    (q : α → Bool) (hnd : (l.map key).Nodup)
    (hfind : l.find? (fun x => decide (key x = i)) = some a) :
    l.find? (fun x => decide (key x = i) && q x) = if q a then some a else none := by
  induction l with
  | nil => simp at hfind
  | cons x rest ih =>
    rw [List.map_cons, List.nodup_cons] at hnd
    by_cases hx : key x = i
    · have hax : x = a := by
        rw [List.find?_cons_of_pos _ (by simpa using hx)] at hfind
        exact Option.some.inj hfind
      subst hax
      have hrest : ∀ y ∈ rest, key y ≠ i := by
        intro y hy hk
        exact hnd.1 ((hx.trans hk.symm) ▸ List.mem_map_of_mem key hy)
      by_cases hq : q x
      · rw [List.find?_cons_of_pos _ (by simp [hq, hx]), if_pos hq]
      · rw [List.find?_cons_of_neg _ (by simp [hq]), if_neg hq, List.find?_eq_none]
        intro y hy
        simp [hrest y hy]
    · rw [List.find?_cons_of_neg _ (by simpa using hx)] at hfind
      rw [List.find?_cons_of_neg _ (by simp [hx])]
      exact ih hnd.2 hfind

theorem mem_removed_iff {α : Type} (key : α → Int) (curr prev : List α) (i : Int) :
    i ∈ removed_ids key curr prev ↔
      ∃ p ∈ prev, key p = i ∧ curr.find? (fun cx => decide (key cx = i)) = none := by
  unfold removed_ids
  simp only [List.mem_map, List.mem_filter]
  constructor
  · rintro ⟨p, ⟨hp, hany⟩, rfl⟩
    refine ⟨p, hp, rfl, ?_⟩
    rw [List.find?_eq_none]
    intro x hx
    simp only [Bool.not_eq_true', List.any_eq_false] at hany
    exact hany x hx
  · rintro ⟨p, hp, hkey, hfind⟩
    refine ⟨p, ⟨hp, ?_⟩, hkey⟩
    simp only [Bool.not_eq_true', List.any_eq_false]
    intro x hx
    rw [List.find?_eq_none] at hfind
    simpa [hkey] using hfind x hx

theorem recon_removed_obs {α β : Type} (key : α → Int) (changed : α → α → Bool)
    (obs : α → β) (hobs : ∀ p q, changed p q = false → obs p = obs q)
    (curr prev : List α) (hnd : (curr.map key).Nodup) (i : Int) :
    (if i ∈ removed_ids key curr prev then none
      else
        ((upd_list key changed curr prev).find? (fun x => decide (key x = i))).orElse
          (fun _ => prev.find? (fun x => decide (key x = i)))).map obs =
      (curr.find? (fun x => decide (key x = i))).map obs := by
  have hupd :
      (upd_list key changed curr prev).find? (fun x => decide (key x = i)) =
        curr.find? (fun x =>
          decide (key x = i) &&
            (match prev.find? (fun px => decide (key px = key x)) with
              | none => true
              | some px => changed px x)) := by
    unfold upd_list
    exact find?_filter_bool curr _ _
  cases hc : curr.find? (fun x => decide (key x = i)) with
  | none =>
    have hnokey : ∀ x ∈ curr, key x ≠ i := by
      rw [List.find?_eq_none] at hc
      intro x hx h
      exact absurd (by simp [h] : decide (key x = i) = true) (by simpa using hc x hx)
    by_cases hrem : i ∈ removed_ids key curr prev
    · rw [if_pos hrem]
    · rw [if_neg hrem]
      have h1 :
          (upd_list key changed curr prev).find? (fun x => decide (key x = i)) = none := by
        rw [hupd, List.find?_eq_none]
        intro x hx
        simp [hnokey x hx]
      rw [h1]
      cases hp : prev.find? (fun x => decide (key x = i)) with
      | none => simp [Option.orElse]
      | some p0 =>
        exfalso
        apply hrem
        rw [mem_removed_iff]
        exact ⟨p0, List.mem_of_find?_eq_some hp, by simpa using List.find?_some hp, hc⟩
  | some a =>
    have hkey : key a = i := by simpa using List.find?_some hc
    have hrem : i ∉ removed_ids key curr prev := by
      rw [mem_removed_iff]
      rintro ⟨p, hp, hpk, hnone⟩
      rw [hc] at hnone
      cases hnone
    rw [if_neg hrem, hupd, find?_key_and key curr i a _ hnd hc]
    cases hpf : prev.find? (fun px => decide (key px = key a)) with
    | none => simp [hpf, Option.orElse]
    | some p0 =>
      by_cases hch : changed p0 a
      · simp [hpf, hch, Option.orElse]
      · have hfb : prev.find? (fun px => decide (key px = i)) = some p0 := by
          rw [← hkey]
          exact hpf
        have hobseq : obs p0 = obs a := hobs p0 a (by simpa using hch)
        simp [hpf, hch, hfb, hobseq, Option.orElse]

theorem recon_norem_obs {α β : Type} (key : α → Int) (changed : α → α → Bool)
    (obs : α → β) (hobs : ∀ p q, changed p q = false → obs p = obs q)
    (curr prev : List α) (hnd : (curr.map key).Nodup)
    (hno : ∀ p ∈ prev, ∃ cx ∈ curr, key cx = key p) (i : Int) :
    (((upd_list key changed curr prev).find? (fun x => decide (key x = i))).orElse
        (fun _ => prev.find? (fun x => decide (key x = i)))).map obs =
      (curr.find? (fun x => decide (key x = i))).map obs := by
  have hupd :
      (upd_list key changed curr prev).find? (fun x => decide (key x = i)) =
        curr.find? (fun x =>
          decide (key x = i) &&
            (match prev.find? (fun px => decide (key px = key x)) with
              | none => true
              | some px => changed px x)) := by
    unfold upd_list
    exact find?_filter_bool curr _ _
  cases hc : curr.find? (fun x => decide (key x = i)) with
  | none =>
    have hnokey : ∀ x ∈ curr, key x ≠ i := by
      rw [List.find?_eq_none] at hc
      intro x hx h
      exact absurd (by simp [h] : decide (key x = i) = true) (by simpa using hc x hx)
    have h1 :
        (upd_list key changed curr prev).find? (fun x => decide (key x = i)) = none := by
      rw [hupd, List.find?_eq_none]
      intro x hx
      simp [hnokey x hx]
    rw [h1]
    cases hp : prev.find? (fun x => decide (key x = i)) with
    | none => simp [Option.orElse]
    | some p0 =>
      exfalso
      obtain ⟨cx, hcx, hcxk⟩ := hno p0 (List.mem_of_find?_eq_some hp)
      have : key p0 = i := by simpa using List.find?_some hp
      exact hnokey cx hcx (hcxk.trans this)
  | some a =>
    rw [hupd, find?_key_and key curr i a _ hnd hc]
    have hkey : key a = i := by simpa using List.find?_some hc
    cases hpf : prev.find? (fun px => decide (key px = key a)) with
    | none => simp [hpf, Option.orElse]
    | some p0 =>
      by_cases hch : changed p0 a
      · simp [hpf, hch, Option.orElse]
      · have hfb : prev.find? (fun px => decide (key px = i)) = some p0 := by
          rw [← hkey]
          exact hpf
        have hobseq : obs p0 = obs a := hobs p0 a (by simpa using hch)
        simp [hpf, hch, hfb, hobseq, Option.orElse]

/-- C9 (amended): applying a DeltaUpdate to the previous snapshot
reconstructs the fresh state only up to the fields inspected by the
change detection.  Under the program invariants that current snapshot
ids are pairwise distinct and that colonies are never removed, the
reconstructed and fresh stores hold entries for exactly the same ids and
agree on every ant's position, state, health and energy, every colony's
population and resources, and every food source's amount; the delta's
trail list is the fresh trail list itself.  Fields that are not
compared — an ant's heading angle, speed, target, carried load, or a
colony's center — may differ (see the counterexample). -/
theorem c9_delta_reconstructs_compared_fields (sim tick : Int)
    (ca : List FastAnt) (cc : List FastColony) (cf : List FastFoodSource)
    (ct : List FastPheromoneTrail) (pa : List FastAnt) (pc : List FastColony)
    (pf : List FastFoodSource)
    (hca : KeysNodup FastAnt.id ca) (hcc : KeysNodup FastColony.id cc)
    (hcf : KeysNodup FastFoodSource.id cf)
    (hpc : ∀ p ∈ pc, ∃ q ∈ cc, FastColony.id q = FastColony.id p) :
    (∀ i,
      (apply_delta_ants (create_delta_update sim tick ca cc cf ct pa pc pf) pa i).map antObs =
        (lookupById FastAnt.id ca i).map antObs) ∧
    (∀ i,
      (apply_delta_colonies (create_delta_update sim tick ca cc cf ct pa pc pf) pc i).map
          colonyObs = (lookupById FastColony.id cc i).map colonyObs) ∧
    (∀ i,
      (apply_delta_food (create_delta_update sim tick ca cc cf ct pa pc pf) pf i).map foodObs =
        (lookupById FastFoodSource.id cf i).map foodObs) ∧
    (create_delta_update sim tick ca cc cf ct pa pc pf).new_pheromone_trails = ct := by
  have hobsA : ∀ p q : FastAnt, ant_changed p q = false → antObs p = antObs q := by
    intro p q h
    simp only [ant_changed, Bool.or_eq_false_iff, decide_eq_false_iff_not, not_not] at h
    simp [antObs, h.1.1.1, h.1.1.2, h.1.2, h.2]
  have hobsC : ∀ p q : FastColony, colony_changed p q = false → colonyObs p = colonyObs q := by
    intro p q h
    simp only [colony_changed, Bool.or_eq_false_iff, decide_eq_false_iff_not, not_not] at h
    simp [colonyObs, h.1, h.2]
  have hobsF : ∀ p q : FastFoodSource, food_changed p q = false → foodObs p = foodObs q := by
    intro p q h
    simp only [food_changed, decide_eq_false_iff_not, not_not] at h
    simp [foodObs, h]
  refine ⟨fun i => ?_, fun i => ?_, fun i => ?_, rfl⟩
  · simpa only [apply_delta_ants, create_delta_update, lookupById] using
      recon_removed_obs FastAnt.id ant_changed antObs hobsA ca pa hca i
  · simpa only [apply_delta_colonies, create_delta_update, lookupById] using
      recon_norem_obs FastColony.id colony_changed colonyObs hobsC cc pc hcc hpc i
  · simpa only [apply_delta_food, create_delta_update, lookupById] using
      recon_removed_obs FastFoodSource.id food_changed foodObs hobsF cf pf hcf i

/-- C9 witness: the amended reconstruction statement at a concrete
snapshot pair in which one ant moved. -/
theorem c9_delta_reconstructs_witness :
    KeysNodup FastAnt.id [c9w_curr_ant] ∧ KeysNodup FastColony.id [colony0] ∧
      KeysNodup FastFoodSource.id [food0] ∧
      (∀ p ∈ [colony0], ∃ q ∈ [colony0], FastColony.id q = FastColony.id p) ∧
      (apply_delta_ants c9w_delta [c9w_prev_ant] 1).map antObs =
        (lookupById FastAnt.id [c9w_curr_ant] 1).map antObs :=
  ⟨by simp [KeysNodup], by simp [KeysNodup], by simp [KeysNodup], by decide,
    (c9_delta_reconstructs_compared_fields 1 11 [c9w_curr_ant] [colony0] [food0] []
        [c9w_prev_ant] [colony0] [food0] (by simp [KeysNodup]) (by simp [KeysNodup])
        (by simp [KeysNodup]) (by decide)).1 1⟩

/-- C9 counterexample: a pair of successive snapshots in which the only
change is one ant's heading angle.  `create_delta_update` compares only
position, state, health and energy, so the delta carries no update for
the ant and applying it to the previous state keeps the stale angle —
the reconstructed state is not the state a fresh FullState would
contain. -/
theorem c9_angle_change_lost :
    apply_delta_ants c9_delta [c9_prev_ant] 1 = some c9_prev_ant ∧
      lookupById FastAnt.id [c9_curr_ant] 1 = some c9_curr_ant ∧
      c9_prev_ant ≠ c9_curr_ant := by
  refine ⟨by decide, by decide, by decide⟩

/-! ### C6: boundary reflection -/

theorem normalizeAngle_mem (d : ℝ) :
    0 ≤ normalizeAngle d ∧ normalizeAngle d < 2 * Real.pi := by
  have hb : (0 : ℝ) < 2 * Real.pi := by positivity
  simp only [normalizeAngle, fRem, fTrunc]
  by_cases hx : 0 ≤ d / (2 * Real.pi)
  · rw [if_pos hx]
    have key : d - 2 * Real.pi * (⌊d / (2 * Real.pi)⌋ : ℝ) =
        2 * Real.pi * Int.fract (d / (2 * Real.pi)) := by
      rw [Int.fract]
      field_simp
    have h0 : 0 ≤ d - 2 * Real.pi * (⌊d / (2 * Real.pi)⌋ : ℝ) := by
      rw [key]
      exact mul_nonneg (le_of_lt hb) (Int.fract_nonneg _)
    have h1 : d - 2 * Real.pi * (⌊d / (2 * Real.pi)⌋ : ℝ) < 2 * Real.pi := by
      rw [key]
      have hf := Int.fract_lt_one (d / (2 * Real.pi))
      nlinarith
    rw [if_neg (not_lt.mpr h0)]
    exact ⟨h0, h1⟩
  · rw [if_neg hx]
    have key : d - 2 * Real.pi * (⌈d / (2 * Real.pi)⌉ : ℝ) =
        2 * Real.pi * (d / (2 * Real.pi) - (⌈d / (2 * Real.pi)⌉ : ℝ)) := by
      field_simp
    have hle : d - 2 * Real.pi * (⌈d / (2 * Real.pi)⌉ : ℝ) ≤ 0 := by
      rw [key]
      have h := Int.le_ceil (d / (2 * Real.pi))
      nlinarith
    have hgt : -(2 * Real.pi) < d - 2 * Real.pi * (⌈d / (2 * Real.pi)⌉ : ℝ) := by
      rw [key]
      have h := Int.ceil_lt_add_one (d / (2 * Real.pi))
      nlinarith
    by_cases hr : d - 2 * Real.pi * (⌈d / (2 * Real.pi)⌉ : ℝ) < 0
    · rw [if_pos hr]
      constructor <;> linarith
    · rw [if_neg hr]
      exact ⟨not_lt.mp hr, by linarith⟩

theorem reflect1_bounds (B v : ℝ) (h1 : -B ≤ v) (h2 : v ≤ 2 * B) :
    0 ≤ reflect1 B v ∧ reflect1 B v ≤ B := by
  unfold reflect1
  split_ifs with ha hb
  · constructor <;> linarith
  · constructor <;> linarith
  · constructor <;> linarith

/-- C6 (amended): starting inside the world rectangle, one motion step
returns a heading in `[0, 2π)` always, and a position inside
`[0, W] × [0, H]` provided the move distance does not exceed the world
dimensions (`|distance| ≤ W` and `|distance| ≤ H`); a longer step can
overshoot past the opposite boundary because the reflection is applied
at most once per axis (see the counterexample). -/
theorem c6_move_with_bounds_in_bounds (W H : ℝ) (pos : ℝ × ℝ) (direction distance : ℝ)
    (hx0 : 0 ≤ pos.1) (hxW : pos.1 ≤ W) (hy0 : 0 ≤ pos.2) (hyH : pos.2 ≤ H)
    (hdW : |distance| ≤ W) (hdH : |distance| ≤ H) :
    (0 ≤ (move_with_bounds W H pos direction distance).1.1 ∧
      (move_with_bounds W H pos direction distance).1.1 ≤ W) ∧
    (0 ≤ (move_with_bounds W H pos direction distance).1.2 ∧
      (move_with_bounds W H pos direction distance).1.2 ≤ H) ∧
    (0 ≤ (move_with_bounds W H pos direction distance).2 ∧
      (move_with_bounds W H pos direction distance).2 < 2 * Real.pi) := by
  have hcos : |Real.cos direction * distance| ≤ W := by
    rw [abs_mul]
    calc |Real.cos direction| * |distance| ≤ 1 * |distance| :=
      mul_le_mul_of_nonneg_right (Real.abs_cos_le_one _) (abs_nonneg _)
    _ = |distance| := one_mul _
    _ ≤ W := hdW
  have hsin : |Real.sin direction * distance| ≤ H := by
    rw [abs_mul]
    calc |Real.sin direction| * |distance| ≤ 1 * |distance| :=
      mul_le_mul_of_nonneg_right (Real.abs_sin_le_one _) (abs_nonneg _)
    _ = |distance| := one_mul _
    _ ≤ H := hdH
  obtain ⟨hc1, hc2⟩ := abs_le.mp hcos
  obtain ⟨hs1, hs2⟩ := abs_le.mp hsin
  simp only [move_with_bounds]
  refine ⟨?_, ?_, normalizeAngle_mem _⟩
  · exact reflect1_bounds W _ (by linarith) (by linarith)
  · exact reflect1_bounds H _ (by linarith) (by linarith)

/-- C6 witness: the amended statement at a concrete in-range step. -/
theorem c6_move_with_bounds_in_bounds_witness :
    (0 : ℝ) ≤ 500 ∧ (500 : ℝ) ≤ 1000 ∧ |(3 : ℝ)| ≤ 1000 ∧
      ((0 ≤ (move_with_bounds 1000 1000 ((500 : ℝ), 500) 0 3).1.1 ∧
          (move_with_bounds 1000 1000 ((500 : ℝ), 500) 0 3).1.1 ≤ 1000) ∧
        (0 ≤ (move_with_bounds 1000 1000 ((500 : ℝ), 500) 0 3).1.2 ∧
          (move_with_bounds 1000 1000 ((500 : ℝ), 500) 0 3).1.2 ≤ 1000) ∧
        (0 ≤ (move_with_bounds 1000 1000 ((500 : ℝ), 500) 0 3).2 ∧
          (move_with_bounds 1000 1000 ((500 : ℝ), 500) 0 3).2 < 2 * Real.pi)) :=
  ⟨by norm_num, by norm_num, by norm_num,
    c6_move_with_bounds_in_bounds 1000 1000 ((500 : ℝ), 500) 0 3 (by norm_num) (by norm_num)
      (by norm_num) (by norm_num) (by norm_num) (by norm_num)⟩

/-- C6 counterexample: from position (0, 500) with heading π and move
distance 2000 in a 1000 × 1000 world, the single mirroring of
`move_with_bounds` sends the x coordinate to 2000 — outside the world
rectangle — so the claimed invariant fails for large move distances. -/
theorem c6_overshoot_escapes_bounds :
    (move_with_bounds 1000 1000 ((0 : ℝ), 500) Real.pi 2000).1.1 = 2000 ∧
      ¬ (move_with_bounds 1000 1000 ((0 : ℝ), 500) Real.pi 2000).1.1 ≤ 1000 := by
  have h1 : (move_with_bounds 1000 1000 ((0 : ℝ), 500) Real.pi 2000).1.1 = 2000 := by
    simp only [move_with_bounds, reflect1]
    norm_num [Real.cos_pi]
  refine ⟨h1, ?_⟩
  rw [h1]
  norm_num
